import Mathlib

/-!
Verification of the weighted questionnaire scorer in
`jira-backlog-grooming-tool/JIRA-Backlog-Grooming-Tool.py`
(class `GroomingQuestions`).

Modelling conventions:
* Python floats are modelled as exact rationals (`ℚ`); the scoring code
  performs no rounding, so its formulas are exact rational arithmetic.
* The `answers : Dict[str, bool]` argument is modelled as an ordered
  association list `List (String × Bool)`; Python dicts preserve insertion
  order, and `answers.values()` is `answers.map Prod.snd`.
* `calculate_score` is a classmethod reading `cls.QUESTIONS`; it is embedded
  with the question list as an explicit first argument, and the concrete
  class attribute `QUESTIONS` is embedded separately.
* The only failure the scoring expression can produce is float division by
  zero, which in Python raises `ZeroDivisionError`; fallible evaluation is
  modelled with `Except`.
-/

namespace Grooming

/-- One entry of `GroomingQuestions.QUESTIONS`: a dict with keys
`text`, `weight`, `category`. -/
structure Question where
  text : String
  weight : ℚ
  category : String

/-- Runtime failure of the scoring expression: Python raises
`ZeroDivisionError` on float division by zero. -/
inductive PyError where
  | zeroDivisionError
deriving DecidableEq

/-- Embeds the class attribute `GroomingQuestions.QUESTIONS`: the fixed
ten-question configuration of the source, weights transcribed exactly
(for example `1.5 = 3/2`). -/
def QUESTIONS : List Question :=
  [⟨"Is the user story written from end-user perspective?", 1, "clarity"⟩,
   ⟨"Are acceptance criteria clearly defined?", 3/2, "requirements"⟩,
   ⟨"Is the business value clearly articulated?", 6/5, "value"⟩,
   ⟨"Is the scope well-defined and contained?", 13/10, "scope"⟩,
   ⟨"Are all dependencies identified?", 11/10, "technical"⟩,
   ⟨"Is the technical approach clear?", 6/5, "technical"⟩,
   ⟨"Can this be completed within one sprint?", 7/5, "size"⟩,
   ⟨"Are there clear test scenarios?", 1, "quality"⟩,
   ⟨"Is this story independent (can be developed in isolation)?", 11/10,
    "technical"⟩,
   ⟨"Is all necessary information available to start development?", 13/10,
    "readiness"⟩]

/-- Embeds `total_weight = sum(q["weight"] for q in cls.QUESTIONS)`. -/
def totalWeight (questions : List Question) : ℚ :=
  (questions.map Question.weight).sum

/-- Embeds `GroomingQuestions.calculate_score`.  The source computes
`score = sum(q["weight"] for q, answer in zip(cls.QUESTIONS, answers.values()) if answer)`
and returns `(score / total_weight) * 100`; `zip` truncates to the shorter
of the two sequences, and the division raises `ZeroDivisionError` exactly
when `total_weight` is zero. -/
def calculate_score (questions : List Question) (answers : List (String × Bool)) :
    Except PyError ℚ :=
  let total_weight := totalWeight questions
  let score :=
    (((questions.zip (answers.map Prod.snd)).filter fun qa => qa.2).map
      fun qa => qa.1.weight).sum
  if total_weight = 0 then .error .zeroDivisionError
  else .ok ((score / total_weight) * 100)

/-- Embeds `GroomingQuestions.get_readiness_level`, with the exact label
strings returned by the source. -/
def get_readiness_level (score : ℚ) : String :=
  if 90 ≤ score then "Ready for Sprint"
  else if 75 ≤ score then "Minor Refinements Needed"
  else if 50 ≤ score then "Needs Discussion"
  else "Significant Refinement Required"

/-- Modelled from the spec: the `classify` threshold table of section 4.1,
evaluated highest-first, with the label strings the spec gives.  Used only
to compare the spec table against the source function. -/
def classifySpec (score : ℚ) : String :=
  if 90 ≤ score then "Ready"
  else if 75 ≤ score then "Minor Refinement Needed"
  else if 50 ≤ score then "Needs Discussion"
  else "Significant Refinement Required"

/-- Renaming of the spec table labels to the label strings the source
actually returns; the two middle and the last label agree up to this
renaming. -/
def specLabelToCode : String → String
  | "Ready" => "Ready for Sprint"
  | "Minor Refinement Needed" => "Minor Refinements Needed"
  | l => l

/-- The earned weight of the spec formula: the sum of the weights of the
questions whose (positional) answer is true, over the paired prefix of the
two lists. -/
def earnedWeight : List Question → List Bool → ℚ
  | q :: qs, b :: bs => (if b then q.weight else 0) + earnedWeight qs bs
  | _, _ => 0

theorem zip_filter_sum_eq_earnedWeight (qs : List Question) (bs : List Bool) :
    (((qs.zip bs).filter fun qa => qa.2).map fun qa => qa.1.weight).sum
      = earnedWeight qs bs := by
  induction qs generalizing bs with
  | nil => simp [earnedWeight]
  | cons q qs ih =>
    cases bs with
    | nil => simp [earnedWeight]
    | cons b bs =>
      cases b <;> simp [earnedWeight, ih, List.filter_cons]

theorem calculate_score_eq (qs : List Question) (as : List (String × Bool))
    (hT : totalWeight qs ≠ 0) :
    calculate_score qs as
      = .ok (earnedWeight qs (as.map Prod.snd) / totalWeight qs * 100) := by
  simp [calculate_score, hT, zip_filter_sum_eq_earnedWeight]

theorem earnedWeight_nonneg (qs : List Question) (bs : List Bool)
    (hw : ∀ q ∈ qs, 0 ≤ q.weight) : 0 ≤ earnedWeight qs bs := by
  induction qs generalizing bs with
  | nil => simp [earnedWeight]
  | cons q qs ih =>
    cases bs with
    | nil => simp [earnedWeight]
    | cons b bs =>
      have hq : 0 ≤ q.weight := hw q (by simp)
      have := ih bs (fun p hp => hw p (by simp [hp]))
      cases b <;> simp [earnedWeight] <;> positivity

theorem earnedWeight_le_totalWeight (qs : List Question) (bs : List Bool)
    (hw : ∀ q ∈ qs, 0 ≤ q.weight) : earnedWeight qs bs ≤ totalWeight qs := by
  induction qs generalizing bs with
  | nil => simp [earnedWeight, totalWeight]
  | cons q qs ih =>
    have hq : 0 ≤ q.weight := hw q (by simp)
    have hqs : ∀ p ∈ qs, 0 ≤ p.weight := fun p hp => hw p (by simp [hp])
    cases bs with
    | nil =>
      have h0 : (0 : ℚ) ≤ totalWeight qs :=
        le_trans (earnedWeight_nonneg qs [] hqs) (ih [] hqs)
      simp only [totalWeight] at h0
      simp only [earnedWeight, totalWeight, List.map_cons, List.sum_cons]
      linarith
    | cons b bs =>
      have hrec := ih bs hqs
      simp only [totalWeight] at hrec
      simp only [earnedWeight, totalWeight, List.map_cons, List.sum_cons]
      split_ifs <;> linarith

theorem totalWeight_nonneg (qs : List Question)
    (hw : ∀ q ∈ qs, 0 ≤ q.weight) : 0 ≤ totalWeight qs :=
  le_trans (earnedWeight_nonneg qs [] hw) (earnedWeight_le_totalWeight qs [] hw)

theorem earnedWeight_all_true (qs : List Question) (bs : List Bool)
    (hlen : bs.length = qs.length) (hv : ∀ b ∈ bs, b = true) :
    earnedWeight qs bs = totalWeight qs := by
  induction qs generalizing bs with
  | nil => simp [List.length_eq_zero] at hlen; simp [hlen, earnedWeight, totalWeight]
  | cons q qs ih =>
    cases bs with
    | nil => simp at hlen
    | cons b bs =>
      have hb : b = true := hv b (by simp)
      have hrec := ih bs (by simpa using hlen) (fun x hx => hv x (by simp [hx]))
      simp only [totalWeight] at hrec
      simp only [earnedWeight, totalWeight, List.map_cons, List.sum_cons, hb,
        if_true]
      linarith

theorem earnedWeight_all_false (qs : List Question) (bs : List Bool)
    (hv : ∀ b ∈ bs, b = false) : earnedWeight qs bs = 0 := by
  induction qs generalizing bs with
  | nil => simp [earnedWeight]
  | cons q qs ih =>
    cases bs with
    | nil => simp [earnedWeight]
    | cons b bs =>
      have hb : b = false := hv b (by simp)
      have := ih bs (fun x hx => hv x (by simp [hx]))
      simp [earnedWeight, hb, this]

theorem earnedWeight_take (qs : List Question) (bs : List Bool) :
    earnedWeight qs bs = earnedWeight (qs.take bs.length) bs := by
  induction qs generalizing bs with
  | nil => simp
  | cons q qs ih =>
    cases bs with
    | nil => simp [earnedWeight]
    | cons b bs => simp [earnedWeight, ih bs]

theorem earnedWeight_set_true (qs : List Question) (bs : List Bool) (i : ℕ)
    (hw : ∀ q ∈ qs, 0 ≤ q.weight) :
    earnedWeight qs bs ≤ earnedWeight qs (bs.set i true) := by
  induction qs generalizing bs i with
  | nil => simp [earnedWeight]
  | cons q qs ih =>
    cases bs with
    | nil => simp [earnedWeight]
    | cons b bs =>
      have hq : 0 ≤ q.weight := hw q (by simp)
      have hqs : ∀ p ∈ qs, 0 ≤ p.weight := fun p hp => hw p (by simp [hp])
      cases i with
      | zero =>
        simp only [earnedWeight, List.set]
        split_ifs <;> linarith
      | succ i =>
        have hrec := ih bs i hqs
        simp only [earnedWeight, List.set]
        linarith

/-- The four label strings the source can return, in band order. -/
def readinessLabels : List String :=
  ["Ready for Sprint", "Minor Refinements Needed", "Needs Discussion",
   "Significant Refinement Required"]

/-- Label of the i-th band, in the same order as `readinessLabels`. -/
def readinessLabel (i : Fin 4) : String :=
  if i.val = 0 then "Ready for Sprint"
  else if i.val = 1 then "Minor Refinements Needed"
  else if i.val = 2 then "Needs Discussion"
  else "Significant Refinement Required"

/-- The i-th score band of the spec: the bands are intended to tile ℚ. -/
def bandCond (i : Fin 4) (s : ℚ) : Prop :=
  if i.val = 0 then 90 ≤ s
  else if i.val = 1 then 75 ≤ s ∧ s < 90
  else if i.val = 2 then 50 ≤ s ∧ s < 75
  else s < 50

/-- A small three-question configuration with weights 1, 1, 2, used by the
concrete scenarios of the spec (section 8, items 5 and 6). -/
def c3Questions : List Question :=
  [⟨"A", 1, ""⟩, ⟨"B", 1, ""⟩, ⟨"C", 2, ""⟩]

/-- A one-question configuration whose total weight is zero. -/
def zeroWeightQuestions : List Question := [⟨"Q", 0, "c"⟩]

/-- C1 (amended): `get_readiness_level` implements the spec threshold table
evaluated highest-first — score ≥ 90, then 75 ≤ score < 90, then
50 ≤ score < 75, then score < 50 — but the labels of the two highest bands
are "Ready for Sprint" and "Minor Refinements Needed", not the spec table
strings "Ready" and "Minor Refinement Needed". -/
theorem c1_readiness_level_matches_spec_bands (s : ℚ) :
    get_readiness_level s = specLabelToCode (classifySpec s) ∧
    (90 ≤ s → get_readiness_level s = "Ready for Sprint") ∧
    (75 ≤ s → s < 90 → get_readiness_level s = "Minor Refinements Needed") ∧
    (50 ≤ s → s < 75 → get_readiness_level s = "Needs Discussion") ∧
    (s < 50 → get_readiness_level s = "Significant Refinement Required") := by
  unfold get_readiness_level classifySpec
  refine ⟨?_, ?_, ?_, ?_, ?_⟩ <;> intros <;> split_ifs <;>
    first | rfl | linarith

/-- C1 counterexample: at score 95 the source returns "Ready for Sprint",
not the spec table label "Ready". -/
theorem c1_label_counterexample : get_readiness_level (95 : ℚ) ≠ "Ready" := by
  unfold get_readiness_level
  rw [if_pos (by norm_num : (90 : ℚ) ≤ 95)]
  decide

/-- C1 witness: the band theorem instantiated at score 80. -/
theorem c1_witness : get_readiness_level (80 : ℚ) = "Minor Refinements Needed" :=
  (c1_readiness_level_matches_spec_bands 80).2.2.1 (by norm_num) (by norm_num)

/-- C9: `get_readiness_level` is a deterministic total function of the
score: every rational score — also scores below 0 or above 100 — lies in
exactly one of the four bands, the function returns that band label, and
the result is always one of the four fixed labels. -/
theorem c9_classification_total_partition (s : ℚ) :
    get_readiness_level s ∈ readinessLabels ∧
    ∃! i : Fin 4, bandCond i s ∧ get_readiness_level s = readinessLabel i := by
  constructor
  · unfold get_readiness_level readinessLabels
    split_ifs <;> simp
  rcases le_or_lt 90 s with h90 | h90
  · refine ⟨0, ⟨by simp [bandCond, h90], ?_⟩, ?_⟩
    · unfold get_readiness_level readinessLabel
      rw [if_pos h90]; rfl
    · rintro j ⟨hj, _⟩
      fin_cases j
      · rfl
      · exfalso; simp only [bandCond] at hj; norm_num at hj; linarith [hj.2]
      · exfalso; simp only [bandCond] at hj; norm_num at hj; linarith [hj.2]
      · exfalso; simp only [bandCond] at hj; norm_num at hj; linarith
  rcases le_or_lt 75 s with h75 | h75
  · refine ⟨1, ⟨by simp [bandCond, h75, h90], ?_⟩, ?_⟩
    · unfold get_readiness_level readinessLabel
      rw [if_neg (by linarith), if_pos h75]; rfl
    · rintro j ⟨hj, _⟩
      fin_cases j
      · exfalso; simp only [bandCond] at hj; norm_num at hj; linarith
      · rfl
      · exfalso; simp only [bandCond] at hj; norm_num at hj; linarith [hj.2]
      · exfalso; simp only [bandCond] at hj; norm_num at hj; linarith
  rcases le_or_lt 50 s with h50 | h50
  · refine ⟨2, ⟨by simp [bandCond, h50, h75], ?_⟩, ?_⟩
    · unfold get_readiness_level readinessLabel
      rw [if_neg (by linarith), if_neg (by linarith), if_pos h50]; rfl
    · rintro j ⟨hj, _⟩
      fin_cases j
      · exfalso; simp only [bandCond] at hj; norm_num at hj; linarith
      · exfalso; simp only [bandCond] at hj; norm_num at hj; linarith [hj.1]
      · rfl
      · exfalso; simp only [bandCond] at hj; norm_num at hj; linarith
  · refine ⟨⟨3, by norm_num⟩, ⟨by simp [bandCond, h50], ?_⟩, ?_⟩
    · unfold get_readiness_level readinessLabel
      rw [if_neg (by linarith), if_neg (by linarith), if_neg (by linarith)]
      rfl
    · rintro j ⟨hj, _⟩
      fin_cases j
      · exfalso; simp only [bandCond] at hj; norm_num at hj; linarith
      · exfalso; simp only [bandCond] at hj; norm_num at hj; linarith [hj.1]
      · exfalso; simp only [bandCond] at hj; norm_num at hj; linarith [hj.1]
      · rfl

/-- C9 witness: the partition theorem instantiated at score 42. -/
theorem c9_witness :
    get_readiness_level (42 : ℚ) ∈ readinessLabels ∧
    ∃! i : Fin 4, bandCond i 42 ∧ get_readiness_level 42 = readinessLabel i :=
  c9_classification_total_partition 42

/-- C2: the source scoring routine, given 3 questions and a 2-entry answers
mapping, does not fail: `zip` silently truncates and the call returns the
numeric score 25 (earned weight 1 over the first two answers, divided by
the full total weight 4). -/
theorem c2_code_returns_numeric_on_mismatch :
    calculate_score c3Questions [("A", true), ("B", false)] = .ok 25 := by
  norm_num [calculate_score, totalWeight, c3Questions, List.filter_cons]

/-- C8: at a question configuration of total weight zero the source attempts
the division and fails with Python ZeroDivisionError; the code has no
DegenerateQuestionSet guard. -/
theorem c8_code_zero_division :
    calculate_score zeroWeightQuestions [("Q", true)] =
      .error .zeroDivisionError := by
  simp [calculate_score, zeroWeightQuestions, totalWeight]

theorem totalWeight_pos (qs : List Question) (hne : qs ≠ [])
    (hw : ∀ q ∈ qs, 0 < q.weight) : 0 < totalWeight qs := by
  cases qs with
  | nil => exact absurd rfl hne
  | cons q qs =>
    have hq : 0 < q.weight := hw q (by simp)
    have h0 : 0 ≤ totalWeight qs :=
      totalWeight_nonneg qs (fun p hp => le_of_lt (hw p (by simp [hp])))
    simp only [totalWeight] at h0 ⊢
    simp only [List.map_cons, List.sum_cons]
    linarith

/-- C3 (amended): for every question sequence with nonzero total weight and
every complete answer set, `calculate_score` returns exactly
earned weight over total weight times 100, with no rounding; with weights
1, 1, 2 and answers true, false, true the total weight is 4, the earned
weight 3, and the score exactly 75 — which the source labels
"Minor Refinements Needed" (the spec table says "Minor Refinement Needed"). -/
theorem c3_score_formula_and_example :
    (∀ (qs : List Question) (as : List (String × Bool)),
        as.length = qs.length → totalWeight qs ≠ 0 →
        calculate_score qs as =
          .ok (earnedWeight qs (as.map Prod.snd) / totalWeight qs * 100)) ∧
    totalWeight c3Questions = 4 ∧
    earnedWeight c3Questions [true, false, true] = 3 ∧
    calculate_score c3Questions [("A", true), ("B", false), ("C", true)] =
      .ok 75 ∧
    get_readiness_level 75 = "Minor Refinements Needed" := by
  refine ⟨fun qs as _ hT => calculate_score_eq qs as hT, ?_, ?_, ?_, ?_⟩
  · norm_num [totalWeight, c3Questions]
  · norm_num [earnedWeight, c3Questions]
  · norm_num [calculate_score, totalWeight, c3Questions, List.filter_cons]
  · unfold get_readiness_level
    rw [if_neg (by norm_num : ¬ (90 : ℚ) ≤ 75),
      if_pos (by norm_num : (75 : ℚ) ≤ 75)]

/-- C3 counterexample: score 75 is labelled "Minor Refinements Needed" by
the source, not the spec table string "Minor Refinement Needed". -/
theorem c3_label_counterexample :
    get_readiness_level (75 : ℚ) ≠ "Minor Refinement Needed" := by
  unfold get_readiness_level
  rw [if_neg (by norm_num : ¬ (90 : ℚ) ≤ 75),
    if_pos (by norm_num : (75 : ℚ) ≤ 75)]
  decide

/-- C3 witness: the score formula instantiated on the three-question
scenario of the spec. -/
theorem c3_witness :
    calculate_score c3Questions [("A", true), ("B", false), ("C", true)] =
      .ok (earnedWeight c3Questions [true, false, true]
            / totalWeight c3Questions * 100) :=
  c3_score_formula_and_example.1 c3Questions
    [("A", true), ("B", false), ("C", true)] rfl
    (by norm_num [totalWeight, c3Questions])

/-- C4: with fewer answers than questions (and nonzero total weight) the
source pairs questions and answers positionally and silently truncates: it
returns the score of the paired prefix of the questions against the full
total weight, instead of failing on the length mismatch. -/
theorem c4_zip_truncates (qs : List Question) (as : List (String × Bool))
    (hlen : as.length < qs.length) (hT : totalWeight qs ≠ 0) :
    calculate_score qs as =
      .ok (earnedWeight (qs.take as.length) (as.map Prod.snd)
            / totalWeight qs * 100) := by
  rw [calculate_score_eq qs as hT, earnedWeight_take]
  simp [List.length_map]

/-- C4 witness: the truncation theorem instantiated on 3 questions and 2
answers. -/
theorem c4_witness :
    calculate_score c3Questions [("A", true), ("B", true)] =
      .ok (earnedWeight (c3Questions.take 2) [true, true]
            / totalWeight c3Questions * 100) :=
  c4_zip_truncates c3Questions [("A", true), ("B", true)]
    (by simp [c3Questions]) (by norm_num [totalWeight, c3Questions])

/-- C5: for a fixed question set with positive weights and a complete
answer set, flipping any single answer from false to true never decreases
the score: both calls succeed and the second score is at least the first. -/
theorem c5_flip_monotone (qs : List Question) (as : List (String × Bool))
    (i : ℕ) (hw : ∀ q ∈ qs, 0 < q.weight) (hlen : as.length = qs.length)
    (hi : i < as.length) (hfalse : (as.get ⟨i, hi⟩).2 = false) :
    ∃ s₁ s₂,
      calculate_score qs as = .ok s₁ ∧
      calculate_score qs (as.set i ((as.get ⟨i, hi⟩).1, true)) = .ok s₂ ∧
      s₁ ≤ s₂ := by
  have hne : qs ≠ [] := by
    intro h
    subst h
    rw [List.length_nil] at hlen
    omega
  have hT : 0 < totalWeight qs := totalWeight_pos qs hne hw
  have hT' : totalWeight qs ≠ 0 := ne_of_gt hT
  refine ⟨_, _, calculate_score_eq qs as hT', calculate_score_eq qs _ hT', ?_⟩
  have hmap : (as.set i ((as.get ⟨i, hi⟩).1, true)).map Prod.snd
      = (as.map Prod.snd).set i true := by
    rw [List.map_set]
  rw [hmap]
  have hmono := earnedWeight_set_true qs (as.map Prod.snd) i
    (fun q hq => le_of_lt (hw q hq))
  gcongr

/-- C5 witness: flipping the middle answer of the three-question scenario
from false to true raises the score from 50 to 75. -/
theorem c5_witness :
    ∃ s₁ s₂,
      calculate_score c3Questions [("A", true), ("B", false), ("C", true)] =
        .ok s₁ ∧
      calculate_score c3Questions
        ([("A", true), ("B", false), ("C", true)].set 1
          (([("A", true), ("B", false), ("C", true)].get
              ⟨1, by norm_num⟩).1, true)) = .ok s₂ ∧
      s₁ ≤ s₂ :=
  c5_flip_monotone c3Questions [("A", true), ("B", false), ("C", true)] 1
    (by norm_num [c3Questions]) rfl (by norm_num) rfl

/-- C6: with non-negative weights, nonzero total weight and a complete
answer set, the score is defined and lies in the closed interval
[0, 100]. -/
theorem c6_score_in_range (qs : List Question) (as : List (String × Bool))
    (hw : ∀ q ∈ qs, 0 ≤ q.weight) (hT : totalWeight qs ≠ 0)
    (hlen : as.length = qs.length) :
    ∃ s, calculate_score qs as = .ok s ∧ 0 ≤ s ∧ s ≤ 100 := by
  have hT0 : 0 < totalWeight qs :=
    lt_of_le_of_ne (totalWeight_nonneg qs hw) (Ne.symm hT)
  refine ⟨_, calculate_score_eq qs as hT, ?_, ?_⟩
  · have he := earnedWeight_nonneg qs (as.map Prod.snd) hw
    positivity
  · have hle := earnedWeight_le_totalWeight qs (as.map Prod.snd) hw
    have h1 : earnedWeight qs (as.map Prod.snd) / totalWeight qs ≤ 1 := by
      rw [div_le_one hT0]
      exact hle
    calc earnedWeight qs (as.map Prod.snd) / totalWeight qs * 100
        ≤ 1 * 100 := mul_le_mul_of_nonneg_right h1 (by norm_num)
      _ = 100 := by norm_num

/-- C6 witness: the range theorem instantiated on the three-question
scenario. -/
theorem c6_witness :
    ∃ s, calculate_score c3Questions [("A", true), ("B", false), ("C", true)]
      = .ok s ∧ 0 ≤ s ∧ s ≤ 100 :=
  c6_score_in_range c3Questions [("A", true), ("B", false), ("C", true)]
    (by norm_num [c3Questions]) (by norm_num [totalWeight, c3Questions]) rfl

/-- C7 (amended): over any question set of positive total weight, an
all-true complete answer set scores exactly 100, which the source labels
"Ready for Sprint" (the spec table says "Ready"); an all-false answer set
scores exactly 0, labelled "Significant Refinement Required". -/
theorem c7_extremes (qs : List Question) (aT aF : List (String × Bool))
    (hT : 0 < totalWeight qs)
    (hlT : aT.length = qs.length) (hvT : ∀ p ∈ aT, p.2 = true)
    (hlF : aF.length = qs.length) (hvF : ∀ p ∈ aF, p.2 = false) :
    (calculate_score qs aT = .ok 100 ∧
      get_readiness_level 100 = "Ready for Sprint") ∧
    (calculate_score qs aF = .ok 0 ∧
      get_readiness_level 0 = "Significant Refinement Required") := by
  have hT' : totalWeight qs ≠ 0 := ne_of_gt hT
  refine ⟨⟨?_, ?_⟩, ?_, ?_⟩
  · rw [calculate_score_eq qs aT hT']
    have hall : earnedWeight qs (aT.map Prod.snd) = totalWeight qs :=
      earnedWeight_all_true qs _ (by simpa using hlT)
        (by
          intro b hb
          rcases List.mem_map.mp hb with ⟨p, hp, rfl⟩
          exact hvT p hp)
    rw [hall, div_self hT', one_mul]
  · unfold get_readiness_level
    rw [if_pos (by norm_num : (90 : ℚ) ≤ 100)]
  · rw [calculate_score_eq qs aF hT']
    have hall : earnedWeight qs (aF.map Prod.snd) = 0 :=
      earnedWeight_all_false qs _
        (by
          intro b hb
          rcases List.mem_map.mp hb with ⟨p, hp, rfl⟩
          exact hvF p hp)
    rw [hall, zero_div, zero_mul]
  · unfold get_readiness_level
    rw [if_neg (by norm_num : ¬ (90 : ℚ) ≤ 0),
      if_neg (by norm_num : ¬ (75 : ℚ) ≤ 0),
      if_neg (by norm_num : ¬ (50 : ℚ) ≤ 0)]

/-- C7 counterexample: score 100 is labelled "Ready for Sprint" by the
source, not the spec table string "Ready". -/
theorem c7_label_counterexample :
    get_readiness_level (100 : ℚ) ≠ "Ready" := by
  unfold get_readiness_level
  rw [if_pos (by norm_num : (90 : ℚ) ≤ 100)]
  decide

/-- The all-true answer set over the fixed question configuration. -/
def allTrueAnswers : List (String × Bool) :=
  QUESTIONS.map fun q => (q.text, true)

/-- The all-false answer set over the fixed question configuration. -/
def allFalseAnswers : List (String × Bool) :=
  QUESTIONS.map fun q => (q.text, false)

/-- C7 witness: the extremes theorem instantiated on the real ten-question
configuration of the source. -/
theorem c7_witness :
    (calculate_score QUESTIONS allTrueAnswers = .ok 100 ∧
      get_readiness_level 100 = "Ready for Sprint") ∧
    (calculate_score QUESTIONS allFalseAnswers = .ok 0 ∧
      get_readiness_level 0 = "Significant Refinement Required") :=
  c7_extremes QUESTIONS allTrueAnswers allFalseAnswers
    (by norm_num [totalWeight, QUESTIONS])
    (by simp [allTrueAnswers])
    (by
      intro p hp
      rcases List.mem_map.mp hp with ⟨q, _, rfl⟩
      rfl)
    (by simp [allFalseAnswers])
    (by
      intro p hp
      rcases List.mem_map.mp hp with ⟨q, _, rfl⟩
      rfl)

/-- C10: the scoring routine never consults the keys of the answers dict:
any two answers lists with the same ordered sequence of boolean values
produce the same result, whatever their keys are. -/
theorem c10_keys_ignored (qs : List Question) (as₁ as₂ : List (String × Bool))
    (h : as₁.map Prod.snd = as₂.map Prod.snd) :
    calculate_score qs as₁ = calculate_score qs as₂ := by
  unfold calculate_score
  rw [h]

/-- C10 witness: the same boolean values under question-text keys and under
arbitrary unrelated keys score identically. -/
theorem c10_witness :
    calculate_score c3Questions [("A", true), ("B", false), ("C", true)] =
      calculate_score c3Questions
        [("X", true), ("Y", false), ("not a question", true)] :=
  c10_keys_ignored c3Questions _ _ rfl

end Grooming
